import Mathlib

/-!
Verification of the Sentari transcript-empathy pipeline.

This file gives a shallow embedding of the profile-tracking and
carry-in-detection pipeline of the repository:

* `src/pipeline.ts` (shipped compiled as `unnamed/part_002`): the in-memory
  13-step pipeline (`parseEntry`, `cosineSimilarity`, `updateUserProfile`,
  `generateEmpathicReply`, `processTranscript`, `resetState`);
* `src/pipeline-supabase.ts` and `src/services/database.ts`
  (`unnamed/part_003`): the persisted variant
  (`processTranscriptWithSupabase`, `findSimilarEntries`).

Modelling conventions:

* JavaScript numbers are modelled as real numbers (`ℝ`); counters are `Nat`.
* JavaScript strings are Lean `String`s, except where the code measures or
  edits strings at the UTF-16 code-unit level (`String.prototype.length`,
  `substring`, the non-unicode regex replace in `generateEmpathicReply`):
  there the value is modelled as a `List Nat` of UTF-16 code units, produced
  by `utf16`.
* The md5-based mock embedder `createEmbedding` is treated as an opaque
  parameter `embed : String → List ℝ` (the spec declares the embedder an
  external collaborator with no semantic guarantee).
* `Date.now()` and `Math.random()` id-suffix generation are injected as the
  parameters `now : Nat` and `rand : String`.
* Logging (`log`, `console.log`) and the log-only steps META_EXTRACT and
  CONTRAST_CHECK have no effect on the returned result or stored state and
  are not modelled.
-/

open scoped Classical

/-- JavaScript word character, `\w` = `[A-Za-z0-9_]`. -/
def isWordChar (c : Char) : Bool := c.isAlphanum || c == '_'

/-- Whitespace stripped by `String.prototype.trim()` (space, tab, line
terminators, vertical tab, form feed, NBSP, BOM, LS, PS). -/
def isJsSpace (c : Char) : Bool :=
  c == ' ' || c == '\t' || c == '\n' || c == '\r' ||
  c == '\x0b' || c == '\x0c' || c.toNat == 160 || c.toNat == 65279 ||
  c.toNat == 8232 || c.toNat == 8233

/-- Model of `transcript.trim()`. -/
def jsTrim (s : String) : String :=
  String.mk (((s.toList.dropWhile isJsSpace).reverse.dropWhile isJsSpace).reverse)

/-- Lowercased character list of a string: model of `text.toLowerCase()`
(all keywords matched by the source are ASCII). -/
def jsLower (s : String) : List Char := s.toList.map Char.toLower

/-- `pat` occurs at the head of `rest` and is followed by a word boundary
(end of input or a non-word character).  Helper for `hasWord`. -/
def matchHere (pat : List Char) (rest : List Char) : Bool :=
  pat.isPrefixOf rest &&
    (match rest.drop pat.length with
     | [] => true
     | c :: _ => !isWordChar c)

/-- Scan of `text` for an occurrence of `pat` preceded by a word boundary
(`prev` records whether the previous character was a word character) and
followed by a word boundary. -/
def boundaryScan (pat : List Char) : Bool → List Char → Bool
  | _, [] => false
  | prev, c :: rest =>
      (!prev && matchHere pat (c :: rest)) || boundaryScan pat (isWordChar c) rest

/-- Model of `lowerText.match(/\b(w)\b/)` for one alternative `w`: `w`
occurs in `text` flanked by word boundaries.  Every alternative used by the
source starts and ends with a word character, for which this scan is exact
(alternatives such as `want to` that contain a space are also covered). -/
def hasWord (text : List Char) (w : String) : Bool :=
  boundaryScan w.toList false text

/-- Model of `lowerText.match(/\b(w1|w2|...)\b/)`: some alternative matches. -/
def anyWord (text : List Char) (ws : List String) : Bool :=
  ws.any (hasWord text)

/-- `pat` occurs as a contiguous sublist of `l`. -/
def occursIn (pat : List Char) : List Char → Bool
  | [] => pat.isEmpty
  | c :: rest => pat.isPrefixOf (c :: rest) || occursIn pat rest

/-- Model of `text.includes(pat)`. -/
def includes (text : List Char) (pat : String) : Bool :=
  occursIn pat.toList text

/-- UTF-16 encoding of one character: BMP characters are one code unit,
astral characters a surrogate pair.  JS strings are sequences of UTF-16
code units; `String.prototype.length` counts these units. -/
def utf16Char (c : Char) : List Nat :=
  if c.toNat < 65536 then [c.toNat]
  else [55296 + (c.toNat - 65536) / 1024, 56320 + (c.toNat - 65536) % 1024]

/-- UTF-16 code units of a string: the JS representation of a string value. -/
def utf16 (s : String) : List Nat := (s.toList.map utf16Char).flatten

/-- `ParsedEntry` from `src/pipeline.ts` / `src/pipeline-supabase.ts`. -/
structure ParsedEntry where
  theme : List String
  vibe : List String
  intent : String
  subtext : String
  persona_trait : List String
  bucket : List String
deriving DecidableEq, Repr

/-- Step 06 PARSE_ENTRY of `src/pipeline.ts` (lines 125-239): rule-based
extraction of themes, vibes, intent, subtext, traits and bucket. -/
def parseEntry (text : String) : ParsedEntry :=
  let lowerText := jsLower text
  let themes :=
    (if anyWord lowerText ["work", "job", "office", "meeting", "boss", "colleague", "project", "deadline", "career"] then ["work-life balance"] else []) ++
    (if anyWord lowerText ["family", "mom", "dad", "parent", "sibling", "relative", "home"] then ["family"] else []) ++
    (if anyWord lowerText ["health", "exercise", "doctor", "medical", "fitness", "wellness"] then ["health"] else []) ++
    (if anyWord lowerText ["friend", "social", "party", "relationship", "dating", "love"] then ["relationships"] else []) ++
    (if anyWord lowerText ["money", "financial", "budget", "bills", "salary", "expenses"] then ["finances"] else []) ++
    (if anyWord lowerText ["study", "learn", "school", "education", "knowledge", "skill"] then ["learning"] else [])
  let themes := if themes.isEmpty then ["personal reflection"] else themes
  let vibes :=
    (if anyWord lowerText ["happy", "joy", "excited", "cheerful", "glad", "pleased", "delighted"] then ["happy"] else []) ++
    (if anyWord lowerText ["anxious", "worried", "nervous", "scared", "afraid", "fearful"] then ["anxious"] else []) ++
    (if anyWord lowerText ["tired", "exhausted", "drained", "weary", "fatigued"] then ["exhausted"] else []) ++
    (if anyWord lowerText ["angry", "mad", "furious", "irritated", "annoyed", "frustrated"] then ["frustrated"] else []) ++
    (if anyWord lowerText ["sad", "depressed", "down", "blue", "melancholy", "upset"] then ["sad"] else []) ++
    (if anyWord lowerText ["calm", "peaceful", "relaxed", "serene", "tranquil"] then ["calm"] else []) ++
    (if anyWord lowerText ["motivated", "driven", "determined", "ambitious", "focused"] then ["driven"] else [])
  let vibes := if vibes.isEmpty then ["reflective"] else vibes
  let intent :=
    if anyWord lowerText ["need", "want", "hope", "wish", "plan"] then
      if includes lowerText "rest" || includes lowerText "sleep" || includes lowerText "break" then
        "Find rest and recovery"
      else if includes lowerText "understand" || includes lowerText "figure" || includes lowerText "clarity" then
        "Gain understanding and clarity"
      else if includes lowerText "improve" || includes lowerText "better" || includes lowerText "change" then
        "Make positive changes"
      else if includes lowerText "help" || includes lowerText "support" then
        "Seek help and support"
      else "Process thoughts and feelings"
    else "Process thoughts and feelings"
  let subtext := "Seeking validation and understanding"
  let subtext :=
    if includes lowerText "but" || includes lowerText "however" || includes lowerText "though" then
      "Internal conflict about priorities"
    else subtext
  let subtext :=
    if includes lowerText "scared" || includes lowerText "afraid" || includes lowerText "fear" then
      "Fear of failure or missing out"
    else subtext
  let subtext :=
    if includes lowerText "should" || includes lowerText "supposed to" || includes lowerText "have to" then
      "Pressure from external expectations"
    else subtext
  let traits :=
    (if anyWord lowerText ["organized", "plan", "schedule", "structure"] then ["organized"] else []) ++
    (if anyWord lowerText ["help", "support", "care", "nurture"] then ["caring"] else []) ++
    (if anyWord lowerText ["think", "analyze", "consider", "reflect"] then ["analytical"] else []) ++
    (if anyWord lowerText ["perfectionist", "detail", "precise", "exact"] then ["perfectionist"] else [])
  let traits := if traits.isEmpty then ["introspective"] else traits
  let buckets :=
    if anyWord lowerText ["goal", "plan", "want to", "going to", "will"] then ["Goal"]
    else if anyWord lowerText ["hobby", "fun", "enjoy", "love doing", "passion"] then ["Hobby"]
    else if anyWord lowerText ["believe", "value", "important", "principle", "moral"] then ["Value"]
    else ["Thought"]
  { theme := themes, vibe := vibes, intent := intent, subtext := subtext,
    persona_trait := traits, bucket := buckets }


/-- Cosine similarity from `src/pipeline.ts` lines 61-74 (the identical
function is repeated in `src/pipeline-supabase.ts` lines 67-82): 0 for
length-mismatched vectors, 0 when the product of magnitudes is zero, and
the normalized dot product otherwise. -/
noncomputable def cosineSimilarity (a b : List ℝ) : ℝ :=
  if a.length ≠ b.length then 0
  else
    let dotProduct := (List.zipWith (fun x y => x * y) a b).sum
    let magnitudeA := (a.map (fun x => x * x)).sum
    let magnitudeB := (b.map (fun x => x * x)).sum
    let magnitude := Real.sqrt magnitudeA * Real.sqrt magnitudeB
    if magnitude = 0 then 0 else dotProduct / magnitude

/-- One stored entry of the in-memory pipeline (`timestamp` is stored but
never read back by any modelled operation and is omitted). -/
structure Entry where
  id : String
  raw_text : String
  embedding : List ℝ
  parsed : ParsedEntry

/-- `UserProfile` of `src/pipeline.ts`.  The JS count objects are
string-keyed records with insertion order; they are modelled as
association lists without duplicate-key creation. -/
structure UserProfile where
  top_themes : List String
  theme_count : List (String × Nat)
  dominant_vibe : String
  vibe_count : List (String × Nat)
  bucket_count : List (String × Nat)
  trait_pool : List String
  last_theme : String

/-- Model of `obj[k] = (obj[k] || 0) + 1` on an insertion-ordered record:
increment in place when the key exists, append `(k, 1)` otherwise. -/
def bump (m : List (String × Nat)) (k : String) : List (String × Nat) :=
  if m.any (fun p => p.1 == k) then
    m.map (fun p => if p.1 == k then (p.1, p.2 + 1) else p)
  else m ++ [(k, 1)]

/-- Model of `obj[k] || 0`: the stored count of a key (first match, keys
are unique in any record built by `bump`), 0 when absent. -/
def cnt : List (String × Nat) → String → Nat
  | [], _ => 0
  | p :: m, k => if p.1 == k then p.2 else cnt m k

/-- Stable insertion of one keyed count into a count-descending list;
together with `sortByCountDesc` this models the ES2019-stable
`Object.entries(x).sort(([, a], [, b]) => b - a)`. -/
def insertByCountDesc (x : String × Nat) : List (String × Nat) → List (String × Nat)
  | [] => [x]
  | y :: ys => if x.2 ≥ y.2 then x :: y :: ys else y :: insertByCountDesc x ys

/-- Stable sort of count entries by count, descending. -/
def sortByCountDesc : List (String × Nat) → List (String × Nat)
  | [] => []
  | x :: xs => insertByCountDesc x (sortByCountDesc xs)

/-- Step 09 PROFILE_UPDATE of `src/pipeline.ts` (lines 243-278): increment
theme/vibe/bucket counts, extend the deduplicated trait pool, recompute the
top-4 themes and the dominant vibe, and record the last theme. -/
def updateUserProfile (profile : UserProfile) (parsed : ParsedEntry) : UserProfile :=
  let themeCount := parsed.theme.foldl bump profile.theme_count
  let vibeCount := parsed.vibe.foldl bump profile.vibe_count
  let bucketCount := parsed.bucket.foldl bump profile.bucket_count
  let traitPool := parsed.persona_trait.foldl
    (fun pool t => if pool.contains t then pool else pool ++ [t]) profile.trait_pool
  let topThemes := ((sortByCountDesc themeCount).take 4).map (fun p => p.1)
  let dominantVibe :=
    match sortByCountDesc vibeCount with
    | [] => profile.dominant_vibe
    | v :: _ => v.1
  let lastTheme :=
    match parsed.theme with
    | [] => profile.last_theme
    | t :: _ => t
  { top_themes := topThemes, theme_count := themeCount, dominant_vibe := dominantVibe,
    vibe_count := vibeCount, bucket_count := bucketCount, trait_pool := traitPool,
    last_theme := lastTheme }

/-- The module-scope mutable state of `src/pipeline.ts`: the entry log and
the single user profile. -/
structure PipelineState where
  entries : List Entry
  userProfile : UserProfile

/-- The initial (empty) profile value of `src/pipeline.ts` lines 27-35. -/
def initProfile : UserProfile :=
  { top_themes := [], theme_count := [], dominant_vibe := "", vibe_count := [],
    bucket_count := [], trait_pool := [], last_theme := "" }

/-- The initial module state: no entries, empty profile. -/
def initState : PipelineState := { entries := [], userProfile := initProfile }

/-- `resetState` of `src/pipeline.ts` lines 423-434: clear the entry log
and restore the empty profile. -/
def resetState (_state : PipelineState) : PipelineState := initState

/-- Model of `entries.slice(-n)` for `n > 0`: the up-to-`n` most recent
entries in arrival order. -/
def lastN (n : Nat) (l : List α) : List α := l.drop (l.length - n)

/-- Model of `Math.max(...sims)` for the carry-in step.  The empty case is
unreachable in the pipeline (the spread is guarded by `recent.length > 0`;
`Math.max()` itself would be `-Infinity`). -/
noncomputable def maxOfList : List ℝ → ℝ
  | [] => 0
  | x :: xs => xs.foldl max x

/-- The theme-overlap test of Step 07 CARRY_IN (`src/pipeline.ts` line 356):
some recent entry shares a theme label with the new parsed entry. -/
def themeOverlap (parsed : ParsedEntry) (recent : List Entry) : Bool :=
  recent.any (fun entry => entry.parsed.theme.any (fun theme => parsed.theme.contains theme))

/-- Step 07 CARRY_IN of `src/pipeline.ts` (lines 352-361): false when no
recent entries exist, otherwise theme overlap or maximum cosine similarity
strictly above 0.86. -/
noncomputable def carryInStep (parsed : ParsedEntry) (embedding : List ℝ)
    (recent : List Entry) : Bool :=
  if 0 < recent.length then
    let similarities := recent.map (fun entry => cosineSimilarity embedding entry.embedding)
    themeOverlap parsed recent || decide (maxOfList similarities > 0.86)
  else false

/-- First-entry response table of `generateEmpathicReply`
(`src/pipeline.ts` lines 287-296). -/
def firstEntryResponses : List (String × String) := [
  ("happy", "Your joy comes through clearly—what a lovely moment!"),
  ("anxious", "You\x27re feeling the weight—take it one step at a time."),
  ("exhausted", "Sounds like you\x27re drained but trying—rest is not failure."),
  ("frustrated", "That frustration is real—you\x27re allowed to feel it."),
  ("sad", "I hear the heaviness in your words—you\x27re not alone."),
  ("calm", "There\x27s peace in your words—hold onto that feeling."),
  ("driven", "Your determination shines through—channel that energy."),
  ("reflective", "I hear you processing—your thoughts matter.")]

/-- Experienced-user response table (`src/pipeline.ts` lines 301-310). -/
def experiencedResponses : List (String × String) := [
  ("happy", "🧩 Your energy is infectious—this joy suits you! ✨"),
  ("anxious", "🧩 Still wrestling with those thoughts, but growth is here 💭"),
  ("exhausted", "🧩 You\x27re still wired-in, but self-care matters too 💤"),
  ("frustrated", "🧩 That familiar tension—you\x27re stronger than before 💪"),
  ("sad", "🧩 The depth in your reflection shows such wisdom 🌊"),
  ("calm", "🧩 This centered version of you is beautiful to see 🌱"),
  ("driven", "🧩 Your fire keeps burning bright—I see the focus ⚡"),
  ("reflective", "🧩 Your depth keeps growing—wisdom building daily 📖")]

/-- Carry-in suffix table (`src/pipeline.ts` lines 314-319). -/
def carryInSuffixes : List (String × String) := [
  ("work-life balance", " This theme keeps surfacing 🔄"),
  ("family", " Family remains close to your heart 💕"),
  ("health", " Your wellness journey continues 🌿"),
  ("relationships", " Connections matter deeply to you 🤝")]

/-- Record lookup, model of `table[key]` returning `undefined` on a miss. -/
def tableLookup (tbl : List (String × String)) (k : String) : Option String :=
  (tbl.find? (fun p => p.1 == k)).map (fun p => p.2)

/-- The UTF-16 code units appearing in the character class of the replace
regex `/[✨💭💤💪🌊🌱⚡📖]$/` (`src/pipeline.ts` line 322).  The regex has
no `u` flag, so the class is a set of single code units: the BMP emoji
contribute themselves and each astral emoji contributes its two surrogate
halves. -/
def emojiClassUnits : List Nat := utf16 "✨💭💤💪🌊🌱⚡📖"

/-- Model of `response.replace(/[✨💭💤💪🌊🌱⚡📖]$/, suffix)`: when the
final code unit of `resp` lies in the class (for a trailing astral emoji
that is its low surrogate), that single unit is replaced by the suffix;
otherwise the string is unchanged. -/
def replaceTrailingEmoji (resp sfx : List Nat) : List Nat :=
  match resp.getLast? with
  | some u => if emojiClassUnits.contains u then resp.dropLast ++ sfx else resp
  | none => resp

/-- Step 11 GPT_REPLY of `src/pipeline.ts` (lines 282-327), producing the
UTF-16 code units of the reply.  `parsed.vibe[0] || 'reflective'` and
`parsed.theme[0] || 'general'` are modelled by `headD` (the parser never
emits the other falsy value `""`). -/
def generateEmpathicReply (parsed : ParsedEntry) (isFirstEntry carryIn : Bool) : List Nat :=
  let primaryVibe := parsed.vibe.headD "reflective"
  let primaryTheme := parsed.theme.headD "general"
  if isFirstEntry then
    utf16 ((tableLookup firstEntryResponses primaryVibe).getD
      "Thank you for sharing this with me.")
  else
    let response := utf16 ((tableLookup experiencedResponses primaryVibe).getD
      "🧩 Your journey continues to unfold beautifully ✨")
    if carryIn then
      match tableLookup carryInSuffixes primaryTheme with
      | some sfx =>
          let sfxUnits := utf16 sfx
          if response.length + sfxUnits.length ≤ 55 then
            replaceTrailingEmoji response sfxUnits
          else response
      | none => response
    else response

/-- The value returned to the caller of `processTranscript`
(`response_text` as UTF-16 code units). -/
structure ProcessResult where
  entryId : String
  response_text : List Nat
  carry_in : Bool

/-- The 13-step `processTranscript` of `src/pipeline.ts` (lines 332-396)
as a state transformer.  `embed` stands for `createEmbedding`, and
`now`/`rand` for the `Date.now()` timestamp and the random id suffix of
Step 10.  Steps 05 (META_EXTRACT), 08 (CONTRAST_CHECK) and 13
(COST_LATENCY_LOG) only log and are omitted. -/
noncomputable def processTranscript (embed : String → List ℝ) (now : Nat) (rand : String)
    (state : PipelineState) (transcript : String) : ProcessResult × PipelineState :=
  let rawText := jsTrim transcript
  let embedding := embed rawText
  let recent := lastN 5 state.entries
  let parsed := parseEntry rawText
  let carryIn := carryInStep parsed embedding recent
  let updatedProfile := updateUserProfile state.userProfile parsed
  let entryId := "entry_" ++ toString now ++ "_" ++ rand
  let newEntry : Entry :=
    { id := entryId, raw_text := rawText, embedding := embedding, parsed := parsed }
  let newEntries := state.entries ++ [newEntry]
  let isFirstEntry := newEntries.length == 1
  let responseText := generateEmpathicReply parsed isFirstEntry carryIn
  ({ entryId := entryId, response_text := responseText, carry_in := carryIn },
   { entries := newEntries, userProfile := updatedProfile })

/-- A sequence of `processTranscript` calls; each item carries the
timestamp, the random id suffix, and the transcript of one call. -/
noncomputable def processMany (embed : String → List ℝ)
    (state : PipelineState) : List (Nat × String × String) → PipelineState
  | [] => state
  | (now, rand, transcript) :: rest =>
      processMany embed (processTranscript embed now rand state transcript).2 rest

namespace Supabase

/-- A row of `diary_entries` as read back by the modelled operations.
`createEntry` (`src/services/database.ts` lines 122-172) also stores the
metadata, intent/subtext/trait/bucket columns and the similarity score;
those columns are write-only for every modelled read and are omitted. -/
structure SupaEntry where
  id : String
  raw_text : String
  embedding : List ℝ
  parsed_themes : List String
  parsed_vibes : List String
  carry_in : Bool
  response_text : List Nat

/-- `parseEntry` of `src/pipeline-supabase.ts` (lines 141-260).  The theme
rules coincide with the in-memory parser; the vibe, intent, subtext, trait
and bucket rules differ. -/
def parseEntry (text : String) : ParsedEntry :=
  let lowerText := jsLower text
  let themes :=
    (if anyWord lowerText ["work", "job", "office", "meeting", "boss", "colleague", "project", "deadline", "career"] then ["work-life balance"] else []) ++
    (if anyWord lowerText ["family", "mom", "dad", "parent", "sibling", "relative", "home"] then ["family"] else []) ++
    (if anyWord lowerText ["health", "exercise", "doctor", "medical", "fitness", "wellness"] then ["health"] else []) ++
    (if anyWord lowerText ["friend", "social", "party", "relationship", "dating", "love"] then ["relationships"] else []) ++
    (if anyWord lowerText ["money", "financial", "budget", "bills", "salary", "expenses"] then ["finances"] else []) ++
    (if anyWord lowerText ["study", "learn", "school", "education", "knowledge", "skill"] then ["learning"] else [])
  let themes := if themes.isEmpty then ["personal reflection"] else themes
  let vibes :=
    (if anyWord lowerText ["happy", "joy", "excited", "cheerful", "glad", "pleased", "delighted"] then ["happy"] else []) ++
    (if anyWord lowerText ["anxious", "worried", "nervous", "scared", "afraid", "fearful"] then ["anxious"] else []) ++
    (if anyWord lowerText ["tired", "exhausted", "drained", "weary", "fatigued"] then ["exhausted"] else []) ++
    (if anyWord lowerText ["angry", "mad", "furious", "irritated", "annoyed", "frustrated"] then ["frustrated"] else []) ++
    (if anyWord lowerText ["sad", "depressed", "down", "blue", "melancholy", "gloomy"] then ["melancholic"] else []) ++
    (if anyWord lowerText ["confused", "uncertain", "unclear", "lost", "puzzled"] then ["confused"] else []) ++
    (if anyWord lowerText ["motivated", "determined", "driven", "focused", "inspired"] then ["motivated"] else [])
  let vibes := if vibes.isEmpty then ["neutral"] else vibes
  let intent :=
    if includes lowerText "help" || includes lowerText "advice" || includes lowerText "what should" then
      "seeking guidance"
    else if includes lowerText "frustrated" || includes lowerText "angry" || includes lowerText "upset" then
      "venting"
    else if includes lowerText "excited" || includes lowerText "happy" || includes lowerText "great" then
      "sharing joy"
    else if includes lowerText "worried" || includes lowerText "anxious" || includes lowerText "concerned" then
      "expressing concern"
    else "reflection"
  let subtext :=
    if themes.contains "work-life balance" && vibes.contains "anxious" then
      "work stress affecting wellbeing"
    else if themes.contains "relationships" && vibes.contains "happy" then
      "social connections bringing joy"
    else if vibes.contains "exhausted" then
      "seeking rest and recovery"
    else if vibes.contains "confused" then
      "navigating uncertainty"
    else "processing daily experience"
  let personaTraits :=
    (if includes lowerText "i always" || includes lowerText "i usually" then ["self-aware"] else []) ++
    (if includes lowerText "others" || includes lowerText "people" || includes lowerText "everyone" then ["socially conscious"] else []) ++
    (if includes lowerText "should" || includes lowerText "need to" || includes lowerText "must" then ["goal-oriented"] else []) ++
    (if includes lowerText "feel" || includes lowerText "emotion" || includes lowerText "heart" then ["emotionally aware"] else [])
  let personaTraits := if personaTraits.isEmpty then ["reflective"] else personaTraits
  let buckets :=
    (if vibes.contains "anxious" || vibes.contains "frustrated" then ["stress management"] else []) ++
    (if themes.contains "work-life balance" then ["career development"] else []) ++
    (if themes.contains "relationships" || themes.contains "family" then ["social wellness"] else []) ++
    (if themes.contains "health" then ["physical wellness"] else []) ++
    (if vibes.contains "happy" || vibes.contains "motivated" then ["personal growth"] else [])
  let buckets := if buckets.isEmpty then ["general wellness"] else buckets
  { theme := themes, vibe := vibes, intent := intent, subtext := subtext,
    persona_trait := personaTraits, bucket := buckets }

/-- Model of `[...new Set(l)]`: deduplication keeping first occurrences. -/
def dedupe (l : List String) : List String :=
  l.foldl (fun acc s => if acc.contains s then acc else acc ++ [s]) []

/-- Step UPDATE_PROFILE of `src/pipeline-supabase.ts` (lines 265-328):
reads the stored profile (creating the empty one when absent, as
`UserProfileService.createProfile` does), increments the three counter
maps, recomputes the top-3 themes and the dominant vibe, extends the trait
pool and sets the last theme. -/
def updateUserProfile (profile : Option UserProfile) (parsed : ParsedEntry) : UserProfile :=
  let base := profile.getD initProfile
  let themeCount := parsed.theme.foldl bump base.theme_count
  let vibeCount := parsed.vibe.foldl bump base.vibe_count
  let bucketCount := parsed.bucket.foldl bump base.bucket_count
  let topThemes := ((sortByCountDesc themeCount).take 3).map (fun p => p.1)
  let dominantVibe :=
    match sortByCountDesc vibeCount with
    | [] => ""
    | v :: _ => v.1
  let traitPool := dedupe (base.trait_pool ++ parsed.persona_trait)
  let lastTheme := parsed.theme.headD ""
  { top_themes := topThemes, theme_count := themeCount, dominant_vibe := dominantVibe,
    vibe_count := vibeCount, bucket_count := bucketCount, trait_pool := traitPool,
    last_theme := lastTheme }

/-- `DiaryEntryService.findSimilarEntries` (`src/services/database.ts`
lines 229-260).  The vector backend (`rpc('find_similar_entries', ...)`) is
injected as `backend`, `none` meaning the call errored or threw.  On any
error the function logs and returns the empty list; it never throws. -/
def findSimilarEntries (backend : Option (List SupaEntry)) : List SupaEntry :=
  backend.getD []

/-- The theme-overlap fallback in the `catch` branch of the carry-in step
(`src/pipeline-supabase.ts` lines 494-502): themes of the 10 most recent
entries, overlapped with the new entry's themes.  Because
`findSimilarEntries` never throws, this branch is unreachable in the
source; it is modelled here to state what the fallback would decide. -/
def themeOverlapFallback (parsed : ParsedEntry) (entries : List SupaEntry) : Bool :=
  let recentEntries := entries.reverse.take 10
  let recentThemes := (recentEntries.map (fun entry => entry.parsed_themes)).flatten
  parsed.theme.any (fun theme => recentThemes.contains theme)

/-- Carry-in table of `generateEmpathicReply` (`src/pipeline-supabase.ts`). -/
def carryInResponses : List String := [
  "🌊 I notice this theme surfacing again",
  "🔄 This feels familiar from before",
  "💭 Building on what you shared earlier",
  "🎯 You keep circling back to this",
  "🔗 I see the connection to yesterday"]

/-- First-entry joy table. -/
def joyResponses : List String := [
  "✨ What lovely energy you bring today!",
  "🌟 Your joy shines through beautifully",
  "💫 I can feel your positive spirit",
  "🌸 Such beautiful emotions to share",
  "🎉 Your happiness is contagious!"]

/-- First-entry support table. -/
def supportResponses : List String := [
  "🤗 I hear the weight you\x27re carrying",
  "💝 You\x27re not alone in this feeling",
  "🌙 Take a gentle breath with me",
  "🕊️ Let\x27s sit with this together",
  "💙 I understand this feels heavy"]

/-- First-entry work table. -/
def workResponses : List String := [
  "⚖️ Work-life balance is so important",
  "🎯 Career thoughts deserve attention",
  "💼 Professional growth matters deeply",
  "🌱 Building your path mindfully",
  "🔮 Your career journey is unique"]

/-- First-entry general table. -/
def generalResponses : List String := [
  "🌿 Thank you for sharing with me",
  "💚 I appreciate your openness",
  "🌺 Your thoughts matter deeply",
  "🦋 Grateful you\x27re here today",
  "🌞 What a gift to hear from you"]

/-- Experienced-user joy table. -/
def experiencedJoyResponses : List String := [
  "🌈 Your growth journey amazes me",
  "⭐ You\x27ve come so far in this space",
  "🎨 I love seeing your evolution",
  "🚀 Your progress is inspiring",
  "🌻 You\x27re blooming beautifully"]

/-- Experienced-user support table. -/
def experiencedSupportResponses : List String := [
  "🧘 Remember your inner strength",
  "💪 You\x27ve weathered storms before",
  "🌊 Riding these waves together",
  "🎯 Trust your resilient spirit",
  "💎 Pressure creates diamonds"]

/-- Experienced-user relationship table. -/
def relationshipResponses : List String := [
  "💕 Connections shape our hearts",
  "🤝 Relationships are life\x27s gifts",
  "💞 Love in all its forms heals",
  "🌟 You nurture beautiful bonds",
  "🏡 Home is where the heart grows"]

/-- Experienced-user general table. -/
def experiencedGeneralResponses : List String := [
  "🌙 Your wisdom deepens each day",
  "🔥 I admire your continued courage",
  "🌊 Flowing through life\x27s chapters",
  "💫 Your journey inspires me daily",
  "🎭 Each story you share matters"]

/-- Step EMPATHIC_REPLY of `src/pipeline-supabase.ts` (lines 333-448).
`Math.floor(Math.random() * list.length)` is injected as `pick % 5` (every
table has five entries).  The final guard truncates to 52 code units plus
an ellipsis whenever the chosen response exceeds 55 units. -/
def generateEmpathicReply (parsed : ParsedEntry) (isFirstEntry carryIn : Bool)
    (entryCount : Nat) (pick : Nat) : List Nat :=
  let vibes := parsed.vibe
  let themes := parsed.theme
  let puzzlePrefix := if entryCount ≥ 100 then utf16 "🧩 " else []
  let choose := fun (lst : List String) => utf16 (lst.getD (pick % lst.length) "")
  let response :=
    if carryIn then choose carryInResponses
    else if isFirstEntry then
      if vibes.contains "happy" || vibes.contains "excited" then choose joyResponses
      else if vibes.contains "anxious" || vibes.contains "frustrated" then choose supportResponses
      else if themes.contains "work-life balance" then choose workResponses
      else choose generalResponses
    else
      if vibes.contains "happy" || vibes.contains "motivated" then choose experiencedJoyResponses
      else if vibes.contains "anxious" || vibes.contains "exhausted" then choose experiencedSupportResponses
      else if themes.contains "relationships" || themes.contains "family" then choose relationshipResponses
      else choose experiencedGeneralResponses
  let response := puzzlePrefix ++ response
  if response.length > 55 then response.take 52 ++ utf16 "..." else response

/-- The persisted stores visible to one user's pipeline calls: the
`user_profiles` row (absent before the first call) and the `diary_entries`
rows in insertion order. -/
structure DbState where
  profile : Option UserProfile
  entries : List SupaEntry

/-- Result shape of `processTranscriptWithSupabase`. -/
structure SupaResult where
  entryId : String
  response_text : List Nat
  carry_in : Bool

/-- `processTranscriptWithSupabase` (`src/pipeline-supabase.ts` lines
453-545).  `backend` injects the vector-search rpc outcome (`none` =
backend failure), `createOk` injects the outcome of the
`DiaryEntryService.createEntry` insert, `pick` the response randomness and
`newId` the database-generated entry id.  On a `createEntry` failure the
function rethrows (`none` result); the profile write of the earlier
UPDATE_PROFILE step is not rolled back and remains in the returned state. -/
noncomputable def processTranscriptWithSupabase (embed : String → List ℝ)
    (backend : Option (List SupaEntry)) (createOk : Bool) (pick : Nat) (newId : String)
    (st : DbState) (transcript : String) : Option SupaResult × DbState :=
  let embedding := embed transcript
  let parsed := parseEntry transcript
  let similarEntries := findSimilarEntries backend
  let carryIn :=
    if 0 < similarEntries.length then
      let maxSimilarity := similarEntries.foldl
        (fun m entry =>
          let similarity := cosineSimilarity embedding entry.embedding
          if similarity > m then similarity else m) 0
      decide (maxSimilarity ≥ 0.86)
    else false
  let updatedProfile := updateUserProfile st.profile parsed
  let entryCount := st.entries.length
  let isFirstEntry := entryCount == 0
  let responseText := generateEmpathicReply parsed isFirstEntry carryIn entryCount pick
  if createOk then
    let newEntry : SupaEntry :=
      { id := newId, raw_text := transcript, embedding := embedding,
        parsed_themes := parsed.theme, parsed_vibes := parsed.vibe,
        carry_in := carryIn, response_text := responseText }
    (some { entryId := newId, response_text := responseText, carry_in := carryIn },
     { profile := some updatedProfile, entries := st.entries ++ [newEntry] })
  else
    (none, { profile := some updatedProfile, entries := st.entries })

end Supabase



/-- A trivial embedder (used where the embedding plays no role). -/
def embedZero : String → List ℝ := fun _ => []

/-- An embedder exhibiting the carry-in threshold boundary: the transcript
`"my mom"` receives the vector `[43, 25, 5, 1]` and every other input the
vector `[1, 0, 0, 0]`; the cosine similarity of the two vectors is exactly
`43 / 50 = 0.86`, the carry-in threshold. -/
noncomputable def embedCX : String → List ℝ :=
  fun s => if s == "my mom" then [43, 25, 5, 1] else [1, 0, 0, 0]

/-- The entry stored by processing `"my mom"` first under `embedCX`. -/
noncomputable def entryCX : Entry :=
  { id := "entry_0_r0", raw_text := "my mom", embedding := [43, 25, 5, 1],
    parsed := parseEntry "my mom" }

/-- The pipeline state after that first call: one stored entry, with theme
`family`. -/
noncomputable def stateCX : PipelineState :=
  { entries := [entryCX],
    userProfile := updateUserProfile initProfile (parseEntry "my mom") }


/-- A Supabase store holding one previously processed entry, produced by a
successful first call (vector backend reachable, no similar entries). -/
noncomputable def dbStateC : Supabase.DbState :=
  (Supabase.processTranscriptWithSupabase embedZero (some []) true 0 "id0"
    { profile := none, entries := [] } "hello").2

lemma cnt_map_incr_ne (k k' : String) (hne : k' ≠ k) (m : List (String × Nat)) :
    cnt (m.map fun p => if p.1 == k then (p.1, p.2 + 1) else p) k' = cnt m k' := by
  induction m with
  | nil => rfl
  | cons p m ih =>
      rw [List.map_cons]
      simp only [cnt]
      by_cases hpk : (p.1 == k) = true
      · simp only [if_pos hpk]
        have hp1 : p.1 = k := by rwa [beq_iff_eq] at hpk
        have hnk : (p.1 == k') = false := by
          rw [beq_eq_false_iff_ne, hp1]
          exact fun h => hne h.symm
        rw [hnk, ih]
        simp
      · simp only [if_neg hpk]
        rw [ih]

lemma cnt_map_incr_eq (k : String) (m : List (String × Nat))
    (hmem : m.any (fun p => p.1 == k) = true) :
    cnt (m.map fun p => if p.1 == k then (p.1, p.2 + 1) else p) k = cnt m k + 1 := by
  induction m with
  | nil => simp at hmem
  | cons p m ih =>
      rw [List.map_cons]
      simp only [cnt]
      by_cases hpk : (p.1 == k) = true
      · simp only [if_pos hpk]
      · simp only [if_neg hpk]
        simp only [List.any_cons, hpk, Bool.false_or] at hmem
        exact ih hmem

lemma cnt_append_new (k k' : String) (m : List (String × Nat))
    (hmem : m.any (fun p => p.1 == k) = false) :
    cnt (m ++ [(k, 1)]) k' = cnt m k' + if k' = k then 1 else 0 := by
  induction m with
  | nil =>
      simp only [List.nil_append, cnt]
      by_cases h : k' = k
      · simp [h]
      · have hkk : (k == k') = false := by
          rw [beq_eq_false_iff_ne]
          exact fun e => h e.symm
        simp [hkk, h]
  | cons p m ih =>
      simp only [List.any_cons, Bool.or_eq_false_iff] at hmem
      rw [List.cons_append]
      simp only [cnt]
      rw [ih hmem.2]
      by_cases hpk : (p.1 == k') = true
      · simp only [if_pos hpk]
        have h1 : p.1 = k' := by rwa [beq_iff_eq] at hpk
        have h2 : p.1 ≠ k := by rw [← beq_eq_false_iff_ne]; exact hmem.1
        rw [if_neg (fun e => h2 (h1.trans e))]
        omega
      · simp only [if_neg hpk]

lemma cnt_bump (m : List (String × Nat)) (k k' : String) :
    cnt (bump m k) k' = cnt m k' + if k' = k then 1 else 0 := by
  unfold bump
  by_cases hmem : (m.any fun p => p.1 == k) = true
  · rw [if_pos hmem]
    by_cases h : k' = k
    · subst h
      rw [if_pos rfl, cnt_map_incr_eq k' m hmem]
    · rw [if_neg h, cnt_map_incr_ne k k' h m]
      omega
  · rw [if_neg hmem]
    rw [cnt_append_new k k' m (by rwa [Bool.not_eq_true] at hmem)]

lemma cnt_foldl_bump (T : String) : ∀ (l : List String) (m : List (String × Nat)),
    cnt (l.foldl bump m) T = cnt m T + l.count T := by
  intro l
  induction l with
  | nil => intro m; simp
  | cons a l ih =>
      intro m
      rw [List.foldl_cons, ih, cnt_bump, List.count_cons]
      by_cases h : T = a
      · subst h
        simp only [if_pos rfl, beq_self_eq_true, if_true]
        omega
      · have hTa : (a == T) = false := by
          rw [beq_eq_false_iff_ne]
          exact fun e => h e.symm
        simp only [if_neg h, hTa, Bool.false_eq_true, if_false]
        omega

lemma cnt_le_foldl_bump (T : String) (l : List String) (m : List (String × Nat)) :
    cnt m T ≤ cnt (l.foldl bump m) T := by
  rw [cnt_foldl_bump]
  omega

lemma processTranscript_carry_in (embed : String → List ℝ) (now : Nat) (rand : String)
    (s : PipelineState) (t : String) :
    (processTranscript embed now rand s t).1.carry_in =
      carryInStep (parseEntry (jsTrim t)) (embed (jsTrim t)) (lastN 5 s.entries) := rfl

lemma processTranscript_entryId (embed : String → List ℝ) (now : Nat) (rand : String)
    (s : PipelineState) (t : String) :
    (processTranscript embed now rand s t).1.entryId =
      "entry_" ++ toString now ++ "_" ++ rand := rfl

lemma processTranscript_response (embed : String → List ℝ) (now : Nat) (rand : String)
    (s : PipelineState) (t : String) :
    (processTranscript embed now rand s t).1.response_text =
      generateEmpathicReply (parseEntry (jsTrim t)) ((s.entries.length + 1) == 1)
        (carryInStep (parseEntry (jsTrim t)) (embed (jsTrim t)) (lastN 5 s.entries)) := by
  simp [processTranscript, List.length_append]

lemma processTranscript_profile (embed : String → List ℝ) (now : Nat) (rand : String)
    (s : PipelineState) (t : String) :
    (processTranscript embed now rand s t).2.userProfile =
      updateUserProfile s.userProfile (parseEntry (jsTrim t)) := rfl

lemma carryInStep_nil (parsed : ParsedEntry) (embedding : List ℝ) :
    carryInStep parsed embedding [] = false := rfl

lemma lastN_ne_nil (n : Nat) (hn : 0 < n) (l : List α) (h : l ≠ []) : lastN n l ≠ [] := by
  unfold lastN
  rw [Ne, List.drop_eq_nil_iff]
  have : 0 < l.length := List.length_pos.mpr h
  omega

lemma carryInStep_spec (parsed : ParsedEntry) (embedding : List ℝ) (recent : List Entry)
    (h : recent ≠ []) :
    (carryInStep parsed embedding recent = true ↔
      themeOverlap parsed recent = true ∨
      maxOfList (recent.map fun entry => cosineSimilarity embedding entry.embedding) > 0.86) := by
  unfold carryInStep
  rw [if_pos (List.length_pos.mpr h)]
  simp [Bool.or_eq_true, decide_eq_true_eq]

lemma processMany_nil (embed : String → List ℝ) (s : PipelineState) :
    processMany embed s [] = s := rfl

lemma processMany_cons (embed : String → List ℝ) (s : PipelineState) (now : Nat)
    (rand t : String) (rest : List (Nat × String × String)) :
    processMany embed s ((now, rand, t) :: rest) =
      processMany embed (processTranscript embed now rand s t).2 rest := rfl

lemma updateUserProfile_theme_cnt (prof : UserProfile) (parsed : ParsedEntry) (T : String) :
    cnt ((updateUserProfile prof parsed).theme_count) T =
      cnt prof.theme_count T + parsed.theme.count T := by
  simp only [updateUserProfile]
  exact cnt_foldl_bump T parsed.theme prof.theme_count

lemma updateUserProfile_vibe_cnt (prof : UserProfile) (parsed : ParsedEntry) (T : String) :
    cnt ((updateUserProfile prof parsed).vibe_count) T =
      cnt prof.vibe_count T + parsed.vibe.count T := by
  simp only [updateUserProfile]
  exact cnt_foldl_bump T parsed.vibe prof.vibe_count

lemma updateUserProfile_bucket_cnt (prof : UserProfile) (parsed : ParsedEntry) (T : String) :
    cnt ((updateUserProfile prof parsed).bucket_count) T =
      cnt prof.bucket_count T + parsed.bucket.count T := by
  simp only [updateUserProfile]
  exact cnt_foldl_bump T parsed.bucket prof.bucket_count

lemma processMany_theme_cnt (embed : String → List ℝ) (T : String) :
    ∀ (calls : List (Nat × String × String)) (s : PipelineState),
    cnt ((processMany embed s calls).userProfile.theme_count) T =
      cnt s.userProfile.theme_count T +
      (calls.map fun c => ((parseEntry (jsTrim c.2.2)).theme.count T)).sum := by
  intro calls
  induction calls with
  | nil => intro s; simp [processMany_nil]
  | cons c rest ih =>
      intro s
      obtain ⟨now, rand, t⟩ := c
      rw [processMany_cons, ih, processTranscript_profile, updateUserProfile_theme_cnt]
      simp only [List.map_cons, List.sum_cons]
      omega

lemma processMany_vibe_mono (embed : String → List ℝ) (label : String) :
    ∀ (calls : List (Nat × String × String)) (s : PipelineState),
    cnt s.userProfile.vibe_count label ≤
      cnt ((processMany embed s calls).userProfile.vibe_count) label := by
  intro calls
  induction calls with
  | nil => intro s; simp [processMany_nil]
  | cons c rest ih =>
      intro s
      obtain ⟨now, rand, t⟩ := c
      rw [processMany_cons]
      refine le_trans ?_ (ih _)
      rw [processTranscript_profile, updateUserProfile_vibe_cnt]
      omega

lemma processMany_bucket_mono (embed : String → List ℝ) (label : String) :
    ∀ (calls : List (Nat × String × String)) (s : PipelineState),
    cnt s.userProfile.bucket_count label ≤
      cnt ((processMany embed s calls).userProfile.bucket_count) label := by
  intro calls
  induction calls with
  | nil => intro s; simp [processMany_nil]
  | cons c rest ih =>
      intro s
      obtain ⟨now, rand, t⟩ := c
      rw [processMany_cons]
      refine le_trans ?_ (ih _)
      rw [processTranscript_profile, updateUserProfile_bucket_cnt]
      omega

lemma processMany_theme_mono (embed : String → List ℝ) (label : String)
    (calls : List (Nat × String × String)) (s : PipelineState) :
    cnt s.userProfile.theme_count label ≤
      cnt ((processMany embed s calls).userProfile.theme_count) label := by
  rw [processMany_theme_cnt]
  omega

lemma sqrt2500 : Real.sqrt 2500 = 50 := by
  rw [show (2500 : ℝ) = 50 ^ 2 by norm_num, Real.sqrt_sq (by norm_num : (0:ℝ) ≤ 50)]

lemma cos_concrete : cosineSimilarity [1, 0, 0, 0] [43, 25, 5, 1] = 0.86 := by
  unfold cosineSimilarity
  rw [if_neg (by simp)]
  simp only [List.zipWith, List.map_cons, List.map_nil, List.sum_cons, List.sum_nil]
  norm_num [sqrt2500]

lemma stateCX_reachable :
    stateCX = (processTranscript embedCX 0 "r0" initState "my mom").2 := by
  have ht : jsTrim "my mom" = "my mom" := by decide
  have hid : "entry_" ++ toString (0 : Nat) ++ "_" ++ "r0" = "entry_0_r0" := by decide
  simp [processTranscript, stateCX, entryCX, embedCX, initState, ht, hid]

lemma parseEntry_empty :
    parseEntry "" =
      { theme := ["personal reflection"], vibe := ["reflective"],
        intent := "Process thoughts and feelings",
        subtext := "Seeking validation and understanding",
        persona_trait := ["introspective"], bucket := ["Thought"] } := by decide

lemma reply_empty_bounds : ∀ (f c : Bool),
    0 < (generateEmpathicReply (parseEntry "") f c).length ∧
    (generateEmpathicReply (parseEntry "") f c).length ≤ 55 := by decide

lemma entryId_ne_empty (now : Nat) (rand : String) :
    "entry_" ++ toString now ++ "_" ++ rand ≠ "" := by
  intro h
  have hlen := congrArg String.length h
  rw [String.length_append, String.length_append, String.length_append] at hlen
  simp only [show ("entry_" : String).length = 6 from rfl,
    show ("_" : String).length = 1 from rfl,
    show ("" : String).length = 0 from rfl] at hlen
  omega

/-- C1: the claimed bound `response_text.length ≤ 55` fails on the
in-memory pipeline: the very first processed entry for the transcript
`"tired"` selects the first-entry `exhausted` response, which is 58 UTF-16
code units (58 code points) long. -/
theorem c1_response_length_violated :
    55 < ((processTranscript embedZero 0 "r0" initState "tired").1.response_text).length := by
  decide

/-- C2 (amended): with a non-empty recency window, carry-in is true exactly
when a theme of the new parsed entry occurs among the recent themes or the
maximum cosine similarity against the recent embeddings is STRICTLY greater
than 0.86 (the source compares with `>`, not `≥`). -/
theorem c2_carry_in_strict_threshold (embed : String → List ℝ) (now : Nat) (rand : String)
    (s : PipelineState) (t : String) (h : s.entries ≠ []) :
    ((processTranscript embed now rand s t).1.carry_in = true ↔
      themeOverlap (parseEntry (jsTrim t)) (lastN 5 s.entries) = true ∨
      maxOfList ((lastN 5 s.entries).map fun entry =>
        cosineSimilarity (embed (jsTrim t)) entry.embedding) > 0.86) := by
  rw [processTranscript_carry_in]
  exact carryInStep_spec _ _ _ (lastN_ne_nil 5 (by norm_num) s.entries h)

/-- Witness for `c2_carry_in_strict_threshold` at the one-entry state
`stateCX` and transcript `"tired"`. -/
theorem c2_carry_in_strict_threshold_witness :
    stateCX.entries ≠ [] ∧
    ((processTranscript embedCX 1 "r1" stateCX "tired").1.carry_in = true ↔
      themeOverlap (parseEntry (jsTrim "tired")) (lastN 5 stateCX.entries) = true ∨
      maxOfList ((lastN 5 stateCX.entries).map fun entry =>
        cosineSimilarity (embedCX (jsTrim "tired")) entry.embedding) > 0.86) :=
  ⟨by simp [stateCX], c2_carry_in_strict_threshold embedCX 1 "r1" stateCX "tired"
    (by simp [stateCX])⟩

/-- C2 counterexample: at the reachable state `stateCX` (one stored entry
with theme `family` and embedding `[43, 25, 5, 1]`), processing `"tired"`
(theme `personal reflection`, embedding `[1, 0, 0, 0]`) gives a maximum
cosine similarity of exactly 0.86, so the claimed `≥ 0.86` disjunct holds
while the code returns `carry_in = false`: the claimed equivalence is
false. -/
theorem c2_carry_in_iff_counterexample :
    ¬ (((processTranscript embedCX 1 "r1" stateCX "tired").1.carry_in = true) ↔
      (themeOverlap (parseEntry (jsTrim "tired")) (lastN 5 stateCX.entries) = true ∨
       maxOfList ((lastN 5 stateCX.entries).map fun entry =>
         cosineSimilarity (embedCX (jsTrim "tired")) entry.embedding) ≥ 0.86)) := by
  have ht : jsTrim "tired" = "tired" := by decide
  have hemb : embedCX "tired" = [1, 0, 0, 0] := by
    unfold embedCX
    rw [if_neg (by decide)]
  have hover : themeOverlap (parseEntry "tired") [entryCX] = false := by decide
  have hmax : maxOfList ([entryCX].map fun entry =>
      cosineSimilarity ([1, 0, 0, 0] : List ℝ) entry.embedding) = 0.86 := by
    simp only [List.map_cons, List.map_nil]
    rw [show entryCX.embedding = [43, 25, 5, 1] from rfl, cos_concrete]
    simp [maxOfList]
  have hlast : lastN 5 stateCX.entries = [entryCX] := rfl
  intro hiff
  rw [processTranscript_carry_in] at hiff
  simp only [ht, hemb, hlast] at hiff
  have hR : themeOverlap (parseEntry "tired") [entryCX] = true ∨
      maxOfList ([entryCX].map fun entry =>
        cosineSimilarity ([1, 0, 0, 0] : List ℝ) entry.embedding) ≥ 0.86 := by
    right
    rw [hmax]
  have hL := hiff.mpr hR
  unfold carryInStep at hL
  rw [if_pos (by simp : 0 < ([entryCX] : List Entry).length)] at hL
  rw [hover, Bool.false_or, decide_eq_true_eq, hmax] at hL
  exact lt_irrefl _ hL

/-- C3: processing a very first entry (empty entry log, hence empty recency
window) always returns `carry_in = false`. -/
theorem c3_first_entry_no_carry_in (embed : String → List ℝ) (now : Nat) (rand : String)
    (s : PipelineState) (t : String) (h : s.entries = []) :
    (processTranscript embed now rand s t).1.carry_in = false := by
  rw [processTranscript_carry_in, h]
  rfl

/-- Witness for `c3_first_entry_no_carry_in` at the initial state. -/
theorem c3_first_entry_no_carry_in_witness :
    initState.entries = [] ∧
    (processTranscript embedZero 0 "r0" initState "hello").1.carry_in = false :=
  ⟨rfl, c3_first_entry_no_carry_in embedZero 0 "r0" initState "hello" rfl⟩

/-- C4: atomicity fails in the Supabase pipeline.  With an empty store,
processing `"tired"` while the `createEntry` insert fails yields no result
(the error is rethrown), no stored entry — but the profile update of the
earlier UPDATE_PROFILE step remains observable (the profile row now exists
with `theme_count["personal reflection"] = 1`), contradicting the claimed
all-or-nothing behavior. -/
theorem c4_supabase_partial_commit :
    (Supabase.processTranscriptWithSupabase embedZero none false 0 "id1"
        { profile := none, entries := [] } "tired").1 = none ∧
    (Supabase.processTranscriptWithSupabase embedZero none false 0 "id1"
        { profile := none, entries := [] } "tired").2.entries = [] ∧
    (Supabase.processTranscriptWithSupabase embedZero none false 0 "id1"
        { profile := none, entries := [] } "tired").2.profile ≠ none ∧
    cnt (((Supabase.processTranscriptWithSupabase embedZero none false 0 "id1"
        { profile := none, entries := [] } "tired").2.profile.getD
          initProfile).theme_count) "personal reflection" = 1 := by
  refine ⟨rfl, rfl, ?_, by decide⟩
  intro h
  exact Option.noConfusion h

/-- C5: when the vector similarity backend is down, processing does not
fail, but carry-in does NOT degrade to the theme-overlap decision:
`findSimilarEntries` swallows the error and returns `[]`, so the
orchestrator's theme-overlap `catch` branch is unreachable and
`carry_in = false` is returned even though the stored recent entry shares
the theme `personal reflection` with the new one. -/
theorem c5_fallback_unreachable :
    ((Supabase.processTranscriptWithSupabase embedZero none true 0 "id1" dbStateC
        "tired").1.map (fun r => r.carry_in)) = some false ∧
    Supabase.themeOverlapFallback (Supabase.parseEntry "tired") dbStateC.entries = true := by
  exact ⟨rfl, by decide⟩

/-- C6: starting from the initial state, after any sequence of successful
`processTranscript` calls the profile's `theme_count[label]` equals the
total number of times `label` occurs among the parsed themes of those
calls; moreover from any state no theme, vibe or bucket counter ever
decreases across further calls. -/
theorem c6_counts_exact_and_monotone (embed : String → List ℝ)
    (calls : List (Nat × String × String)) (s : PipelineState) (label : String) :
    cnt ((processMany embed initState calls).userProfile.theme_count) label =
      (calls.map fun c => ((parseEntry (jsTrim c.2.2)).theme.count label)).sum ∧
    cnt s.userProfile.theme_count label ≤
      cnt ((processMany embed s calls).userProfile.theme_count) label ∧
    cnt s.userProfile.vibe_count label ≤
      cnt ((processMany embed s calls).userProfile.vibe_count) label ∧
    cnt s.userProfile.bucket_count label ≤
      cnt ((processMany embed s calls).userProfile.bucket_count) label := by
  refine ⟨?_, processMany_theme_mono embed label calls s,
    processMany_vibe_mono embed label calls s,
    processMany_bucket_mono embed label calls s⟩
  rw [processMany_theme_cnt]
  simp [initState, initProfile, cnt]

/-- C7: `cosineSimilarity` is total and fail-soft: length-mismatched
vectors give 0 rather than an error, and a zero-magnitude vector on either
side gives 0, so the final division is never performed with a zero
divisor. -/
theorem c7_cosine_fail_soft (a b : List ℝ) :
    (a.length ≠ b.length → cosineSimilarity a b = 0) ∧
    ((a.map fun x => x * x).sum = 0 ∨ (b.map fun x => x * x).sum = 0 →
      cosineSimilarity a b = 0) := by
  constructor
  · intro h
    simp only [cosineSimilarity]
    rw [if_pos h]
  · intro h
    simp only [cosineSimilarity]
    by_cases hlen : a.length ≠ b.length
    · rw [if_pos hlen]
    · rw [if_neg hlen]
      have hm : Real.sqrt ((a.map fun x => x * x).sum) *
          Real.sqrt ((b.map fun x => x * x).sum) = 0 := by
        rcases h with h | h
        · rw [h, Real.sqrt_zero, zero_mul]
        · rw [h, Real.sqrt_zero, mul_zero]
      rw [if_pos hm]

/-- Witness for `c7_cosine_fail_soft`: a length mismatch and a zero
vector, both evaluating to similarity 0. -/
theorem c7_cosine_fail_soft_witness :
    cosineSimilarity [1] [1, 2] = 0 ∧ cosineSimilarity [0, 0] [3, 4] = 0 :=
  ⟨(c7_cosine_fail_soft [1] [1, 2]).1 (by simp),
   (c7_cosine_fail_soft [0, 0] [3, 4]).2 (Or.inl (by norm_num))⟩

/-- C8: an input that is empty after trimming still yields a well-formed
result from any state: a non-empty `entryId` and a non-empty response of
at most 55 UTF-16 code units (`carry_in` is a `Bool` by construction). -/
theorem c8_empty_input_well_formed (embed : String → List ℝ) (now : Nat) (rand : String)
    (s : PipelineState) (t : String) (h : jsTrim t = "") :
    (processTranscript embed now rand s t).1.entryId ≠ "" ∧
    0 < ((processTranscript embed now rand s t).1.response_text).length ∧
    ((processTranscript embed now rand s t).1.response_text).length ≤ 55 := by
  refine ⟨?_, ?_, ?_⟩
  · rw [processTranscript_entryId]
    exact entryId_ne_empty now rand
  · rw [processTranscript_response, h]
    exact (reply_empty_bounds _ _).1
  · rw [processTranscript_response, h]
    exact (reply_empty_bounds _ _).2

/-- Witness for `c8_empty_input_well_formed` on a whitespace-only input. -/
theorem c8_empty_input_well_formed_witness :
    jsTrim "   " = "" ∧
    ((processTranscript embedZero 0 "r0" initState "   ").1.entryId ≠ "" ∧
     0 < ((processTranscript embedZero 0 "r0" initState "   ").1.response_text).length ∧
     ((processTranscript embedZero 0 "r0" initState "   ").1.response_text).length ≤ 55) :=
  ⟨by decide, c8_empty_input_well_formed embedZero 0 "r0" initState "   " (by decide)⟩

/-- C9: after `resetState` the next call behaves exactly like a first-ever
call on the fresh initial state: the whole result and state coincide,
`carry_in = false`, and the response is selected from the first-entry
table. -/
theorem c9_reset_equals_fresh (embed : String → List ℝ) (now : Nat) (rand : String)
    (s : PipelineState) (t : String) :
    processTranscript embed now rand (resetState s) t =
      processTranscript embed now rand initState t ∧
    (processTranscript embed now rand (resetState s) t).1.carry_in = false ∧
    (processTranscript embed now rand (resetState s) t).1.response_text =
      generateEmpathicReply (parseEntry (jsTrim t)) true false := by
  have hreset : resetState s = initState := rfl
  refine ⟨by rw [hreset], ?_, ?_⟩
  · rw [hreset, processTranscript_carry_in,
      show lastN 5 initState.entries = [] from rfl]
    exact carryInStep_nil _ _
  · rw [hreset, processTranscript_response,
      show lastN 5 initState.entries = [] from rfl, carryInStep_nil,
      show ((initState.entries.length + 1) == 1) = true from rfl]

/-- C10: reply selection in the in-memory pipeline is deterministic (equal
arguments give equal replies — the tables are fixed, there is no random
source), and for a fixed state the `response_text` and `carry_in` of a
call do not depend on the id-generation inputs (`Date.now()` /
`Math.random()`), i.e. they are functions of the transcript alone. -/
theorem c10_reply_deterministic (p₁ p₂ : ParsedEntry) (f₁ f₂ c₁ c₂ : Bool)
    (hp : p₁ = p₂) (hf : f₁ = f₂) (hc : c₁ = c₂) (embed : String → List ℝ)
    (s : PipelineState) (t : String) (now₁ now₂ : Nat) (rand₁ rand₂ : String) :
    generateEmpathicReply p₁ f₁ c₁ = generateEmpathicReply p₂ f₂ c₂ ∧
    (processTranscript embed now₁ rand₁ s t).1.response_text =
      (processTranscript embed now₂ rand₂ s t).1.response_text ∧
    (processTranscript embed now₁ rand₁ s t).1.carry_in =
      (processTranscript embed now₂ rand₂ s t).1.carry_in := by
  subst hp hf hc
  refine ⟨rfl, ?_, rfl⟩
  rw [processTranscript_response, processTranscript_response]

/-- Witness for `c10_reply_deterministic` at concrete arguments and two
different id seeds. -/
theorem c10_reply_deterministic_witness :
    generateEmpathicReply (parseEntry "tired") true false =
      generateEmpathicReply (parseEntry "tired") true false ∧
    (processTranscript embedZero 0 "a" initState "hello").1.response_text =
      (processTranscript embedZero 1 "b" initState "hello").1.response_text ∧
    (processTranscript embedZero 0 "a" initState "hello").1.carry_in =
      (processTranscript embedZero 1 "b" initState "hello").1.carry_in :=
  c10_reply_deterministic (parseEntry "tired") (parseEntry "tired") true true false false
    rfl rfl rfl embedZero initState "hello" 0 1 "a" "b"
